import Mathlib

/-!
# mtop — verification of the stats normalizer and the refresh state machine

A shallow embedding of the two core subsystems of the `mtop` system monitor:

* `system.go` — `collectMemoryStats`, `getPageSize`, `collectSystemStats`:
  raw virtual-memory page counters are normalized into byte figures with
  clamping safeguards.  All Go arithmetic there is on `uint64` (wrapping
  modulo 2^64); we model machine words as `Nat` with explicit reduction
  modulo `U64`, and the `uint32` counter fields of `vm_statistics64` as
  `Nat` constrained by a validity predicate.
* the TUI model file — the `model` record, `Update` transition function
  and `View` renderer of the Bubble Tea program: modelled as pure
  functions `update : Model → Msg → Model × Option Cmd` and
  `view : Model → String`.  The outcome of the effectful
  `collectSystemStats` call is carried by the `Tick` message, and
  timestamps / durations are `Int` nanoseconds exactly as Go's
  `time.Time` / `time.Duration`.

Floating point: the only float computation the claims touch is
`Usage = float64(Used) / float64(Total) * 100`.  IEEE double division by
zero does not fault: it yields NaN when the numerator is 0 and +Inf when
it is positive.  We model the result by `UsageVal` — `nan`, `inf`, or a
finite value carried as an exact rational.  Go rounds finite results to
the nearest double; on every input appearing in the claims the values
involved are exactly representable and the rounded result coincides with
the rational one, so the model agrees with the code on those points.
-/

/-- 2^64, the modulus of Go `uint64` arithmetic. -/
def U64 : Nat := 18446744073709551616

/-- 2^32, one more than the largest `uint32` value. -/
def U32 : Nat := 4294967296

/-- Go `uint64` addition (wraps modulo 2^64). -/
def add64 (a b : Nat) : Nat := (a + b) % U64

/-- Go `uint64` subtraction (wraps modulo 2^64). -/
def sub64 (a b : Nat) : Nat := (a % U64 + (U64 - b % U64)) % U64

/-- Go `uint64` multiplication (wraps modulo 2^64). -/
def mul64 (a b : Nat) : Nat := (a * b) % U64

/-- Result of the Go expression `float64(used) / float64(total) * 100`:
either a finite value (modelled as an exact rational) or the IEEE
non-finite outcomes of a zero divisor. -/
inductive UsageVal where
  | num (q : ℚ)
  | inf
  | nan
deriving DecidableEq

/-- `SwapStats` from the TUI model file.  `Usage` is a `float64` the
program only ever sets to `0.0`; modelled as an exact rational. -/
structure SwapStats where
  Total : Nat
  Used : Nat
  Usage : ℚ
deriving DecidableEq

/-- `MemoryStats` from the TUI model file (byte figures are `uint64`). -/
structure MemoryStats where
  Total : Nat
  Used : Nat
  Available : Nat
  Usage : UsageVal
  Swap : SwapStats
deriving DecidableEq

/-- `CPUStats` from the TUI model file; the three load averages of the Go
array `[3]float64` are a triple. -/
structure CPUStats where
  Usage : ℚ
  Cores : List ℚ
  LoadAvg : ℚ × ℚ × ℚ
  Temp : ℚ
deriving DecidableEq

/-- `GPUStats` from the TUI model file. -/
structure GPUStats where
  Usage : ℚ
  MemoryUsage : ℚ
  MemoryUsed : Nat
  MemoryTotal : Nat
  Temp : ℚ
deriving DecidableEq

/-- `SystemStats` from the TUI model file.  `Uptime` is a Go
`time.Duration`, i.e. `int64` nanoseconds. -/
structure SystemStats where
  CPU : CPUStats
  Memory : MemoryStats
  GPU : GPUStats
  Uptime : Int
deriving DecidableEq

/-- The `vm_statistics64` record of `system.go` (mirroring
`mach/vm_statistics.h`).  Fields that are `uint32` in the source carry
values below `U32` (see `VMStats64.Valid`); the `uint64` event counters
are carried unchanged and never read by the normalizer.  All fields
default to 0, the Go zero value. -/
structure VMStats64 where
  FreeCount : Nat := 0
  ActiveCount : Nat := 0
  InactiveCount : Nat := 0
  WireCount : Nat := 0
  ZeroFillCount : Nat := 0
  Reactivations : Nat := 0
  Pageins : Nat := 0
  Pageouts : Nat := 0
  Faults : Nat := 0
  CowFaults : Nat := 0
  Lookups : Nat := 0
  Hits : Nat := 0
  Purges : Nat := 0
  PurgeableCount : Nat := 0
  SpeculativeCount : Nat := 0
  Decompressions : Nat := 0
  Compressions : Nat := 0
  Swapins : Nat := 0
  Swapouts : Nat := 0
  CompressorPageCount : Nat := 0
  ThrottledCount : Nat := 0
  ExternalPageCount : Nat := 0
  InternalPageCount : Nat := 0
  TotalUncompressedPagesInCompressor : Nat := 0
deriving DecidableEq

/-- The fields typed `uint32` in the source hold values below 2^32. -/
def VMStats64.Valid (vm : VMStats64) : Prop :=
  vm.FreeCount < U32 ∧ vm.ActiveCount < U32 ∧ vm.InactiveCount < U32 ∧
  vm.WireCount < U32 ∧ vm.PurgeableCount < U32 ∧ vm.SpeculativeCount < U32 ∧
  vm.CompressorPageCount < U32 ∧ vm.ThrottledCount < U32 ∧
  vm.ExternalPageCount < U32 ∧ vm.InternalPageCount < U32

instance (vm : VMStats64) : Decidable vm.Valid := by
  unfold VMStats64.Valid; infer_instance

/-- Lines 101–108 of `system.go`: the pre-clamp used-page figure,
`uint64(0) + active + inactive + wired + speculative + compressed -
purgeable - external`, evaluated left to right in `uint64` arithmetic. -/
def usedPagesRaw (vm : VMStats64) : Nat :=
  sub64
    (sub64
      (add64
        (add64
          (add64
            (add64
              (add64 0 vm.ActiveCount)
              vm.InactiveCount)
            vm.WireCount)
          vm.SpeculativeCount)
        vm.CompressorPageCount)
      vm.PurgeableCount)
    vm.ExternalPageCount

/-- Modelled from the spec (§4.1 step 2), for comparison with
`usedPagesRaw`: the same combination computed in signed (unbounded
integer) arithmetic, as the spec's words describe it. -/
def usedPagesSigned (vm : VMStats64) : Int :=
  (vm.ActiveCount : Int) + (vm.InactiveCount : Int) + (vm.WireCount : Int) +
    (vm.SpeculativeCount : Int) + (vm.CompressorPageCount : Int) -
    (vm.PurgeableCount : Int) - (vm.ExternalPageCount : Int)

/-- Lines 112–116 of `system.go`: if `usedPages + freePages > totalPages`
(in `uint64` arithmetic) then `usedPages = totalPages - freePages`. -/
def clampUsedPages (usedPages freePages totalPages : Nat) : Nat :=
  if add64 usedPages freePages > totalPages then sub64 totalPages freePages
  else usedPages

/-- Line 131 of `system.go`:
`float64(memStats.Used) / float64(memStats.Total) * 100` under IEEE
double semantics — NaN for 0/0, +Inf for positive/0, the exact quotient
otherwise (finite values modelled as exact rationals, see the file
header). -/
def usagePercent (used total : Nat) : UsageVal :=
  if total = 0 then (if used = 0 then UsageVal.nan else UsageVal.inf)
  else UsageVal.num ((used : ℚ) / (total : ℚ) * 100)

/-- Lines 96–136 of `system.go`, the pure normalization performed by
`collectMemoryStats` once `physmem` (from `hw.memsize`), `pageSize` and
the `vm_statistics64` snapshot are in hand.  `collectSwapStats` returns
the zero `SwapStats` and a nil error (lines 139–142), so `Swap` is the
zero record. -/
def collectMemoryStatsPure (physmem pageSize : Nat) (vm : VMStats64) :
    MemoryStats :=
  let totalPages := physmem / pageSize
  let usedPages := usedPagesRaw vm
  let freePages := vm.FreeCount
  let usedPages := clampUsedPages usedPages freePages totalPages
  let availablePages := add64 (add64 freePages vm.InactiveCount) vm.PurgeableCount
  let availablePages := if availablePages > totalPages then totalPages
    else availablePages
  { Total := physmem
    Used := mul64 usedPages pageSize
    Available := mul64 availablePages pageSize
    Usage := usagePercent (mul64 usedPages pageSize) physmem
    Swap := { Total := 0, Used := 0, Usage := 0 } }

/-- Lines 43–53 of `system.go`.  The two `sysctl` queries are modelled by
`Option Nat` arguments (`none` = the call returned an error); the result
pairs the page size with the returned error, which is `none` (Go `nil`)
on every path. -/
def getPageSize (hwPagesize vmPagesize : Option Nat) : Nat × Option String :=
  match hwPagesize with
  | some pageSize => (pageSize, none)
  | none =>
    match vmPagesize with
    | some vmPageSize => (vmPageSize, none)
    | none => (4096, none)

/-- Lines 75–137 of `system.go`: `collectMemoryStats` with its three
acquisition inputs modelled as `Option`s (`none` = the underlying call
failed; the wrapped message text of the underlying error is immaterial
and omitted). -/
def collectMemoryStats (physmem : Option Nat)
    (hwPagesize vmPagesize : Option Nat) (vmStats : Option VMStats64) :
    Except String MemoryStats :=
  match physmem with
  | none => Except.error "failed to get physical memory"
  | some physmem =>
    match getPageSize hwPagesize vmPagesize with
    | (pageSize, psErr) =>
      match psErr with
      | some e => Except.error ("failed to get page size: " ++ e)
      | none =>
        match vmStats with
        | none => Except.error "failed to get VM statistics"
        | some vm => Except.ok (collectMemoryStatsPure physmem pageSize vm)

/-- `ViewMode` from the TUI model file (`int` with `iota` in Go). -/
inductive ViewMode where
  | OverviewMode
  | CPUDetailMode
  | MemoryDetailMode
  | GPUDetailMode
deriving DecidableEq

/-- The `model` record of the TUI file: the single `ApplicationState`.
`refreshRate` is a Go `time.Duration` (`int64` nanoseconds) and
`lastUpdate` a timestamp in nanoseconds. -/
structure Model where
  stats : SystemStats
  viewMode : ViewMode
  refreshRate : Int
  lastUpdate : Int
  width : Int
  height : Int
  quit : Bool
  lastError : String
deriving DecidableEq

/-- `time.Millisecond` in nanoseconds. -/
def millisecond : Int := 1000000

/-- `time.Second` in nanoseconds. -/
def second : Int := 1000000000

/-- The messages `Update` switches on.  A `TickMsg` carries its
`time.Time` plus the outcome of the `collectSystemStats()` call the
handler performs (the sole effect of the handler, injected here so that
the transition is a pure function); a `tea.KeyMsg` is carried by the
string `msg.String()` returns. -/
inductive Msg where
  | windowSize (width height : Int)
  | tick (t : Int) (collected : Except String SystemStats)
  | key (s : String)

/-- The commands the `Update` function can return: `tea.Tick(d, …)` or
`tea.Quit`. -/
inductive Cmd where
  | tick (d : Int)
  | quit
deriving DecidableEq

/-- Lines 130–183 of the TUI model file: the `Update` method, as the pure
transition `(state, event) ↦ (state, optional command)`.  The branch
structure mirrors the Go `switch` statements case for case; a `nil`
command is `none`. -/
def update (m : Model) (msg : Msg) : Model × Option Cmd :=
  match msg with
  | Msg.windowSize w h => ({ m with width := w, height := h }, none)
  | Msg.tick t collected =>
    let m := match collected with
      | Except.ok newStats => { m with stats := newStats, lastError := "" }
      | Except.error e =>
        { m with lastError := "Error collecting stats: " ++ e }
    let m := { m with lastUpdate := t }
    (m, some (Cmd.tick m.refreshRate))
  | Msg.key s =>
    if s = "ctrl+c" ∨ s = "q" then ({ m with quit := true }, some Cmd.quit)
    else if s = "1" then ({ m with viewMode := ViewMode.OverviewMode }, none)
    else if s = "2" then ({ m with viewMode := ViewMode.CPUDetailMode }, none)
    else if s = "3" then ({ m with viewMode := ViewMode.MemoryDetailMode }, none)
    else if s = "4" then ({ m with viewMode := ViewMode.GPUDetailMode }, none)
    else if s = "+" ∨ s = "=" then
      (if m.refreshRate > 100 * millisecond then
        { m with refreshRate := m.refreshRate - 100 * millisecond }
       else m, none)
    else if s = "-" ∨ s = "_" then
      (if m.refreshRate < 5 * second then
        { m with refreshRate := m.refreshRate + 100 * millisecond }
       else m, none)
    else (m, none)

/-- The fallback `SystemStats` literal of lines 89–115 of the TUI model
file (all-zero figures, 8 zero cores). -/
def defaultStats : SystemStats :=
  { CPU := { Usage := 0, Cores := List.replicate 8 0, LoadAvg := (0, 0, 0)
             Temp := 0 }
    Memory := { Total := 0, Used := 0, Available := 0
                Usage := UsageVal.num 0
                Swap := { Total := 0, Used := 0, Usage := 0 } }
    GPU := { Usage := 0, MemoryUsage := 0, MemoryUsed := 0, MemoryTotal := 0
             Temp := 0 }
    Uptime := 0 }

/-- Lines 72–119 of the TUI model file: `initialModel`.  `t0` stands for
`time.Now()` and `collected` for the outcome of the initial
best-effort `collectSystemStats()` call. -/
def initialModel (t0 : Int) (collected : Except String SystemStats) : Model :=
  match collected with
  | Except.ok stats =>
    { stats := stats, viewMode := ViewMode.OverviewMode
      refreshRate := second, lastUpdate := t0, width := 80, height := 24
      quit := false, lastError := "" }
  | Except.error e =>
    { stats := defaultStats, viewMode := ViewMode.OverviewMode
      refreshRate := second, lastUpdate := t0, width := 80, height := 24
      quit := false
      lastError := "Failed to initialize system stats: " ++ e }

/-- Fold a sequence of events through `update`, keeping the state. -/
def applyMsgs (m : Model) (msgs : List Msg) : Model :=
  msgs.foldl (fun m msg => (update m msg).1) m

/-- States reachable from some initial state by any event sequence. -/
inductive Reachable : Model → Prop where
  | init (t0 : Int) (collected : Except String SystemStats) :
      Reachable (initialModel t0 collected)
  | step {m : Model} (msg : Msg) :
      Reachable m → Reachable (update m msg).1

/-- Fixed-point rendering with one decimal, modelling `fmt.Sprintf`'s
`%.1f` verb on the exact value (rounding half away from zero; Go rounds
the binary double — presentation-only detail the claims do not touch). -/
def fmtF1 (q : ℚ) : String :=
  let sign := if q < 0 then "-" else ""
  let n := (|q| * 10 + 1 / 2).floor.toNat
  sign ++ toString (n / 10) ++ "." ++ toString (n % 10)

/-- `%.2f`, same modelling as `fmtF1`. -/
def fmtF2 (q : ℚ) : String :=
  let sign := if q < 0 then "-" else ""
  let n := (|q| * 100 + 1 / 2).floor.toNat
  sign ++ toString (n / 100) ++ "." ++
    (if n % 100 < 10 then "0" else "") ++ toString (n % 100)

/-- `%.1f` applied to the possibly non-finite usage figure (Go prints
`NaN` / `+Inf` for those doubles). -/
def fmtUsage1 (u : UsageVal) : String :=
  match u with
  | UsageVal.num q => fmtF1 q
  | UsageVal.inf => "+Inf"
  | UsageVal.nan => "NaN"

/-- `%2d`: decimal, right-aligned to width two. -/
def fmtPad2 (n : Nat) : String :=
  if n < 10 then " " ++ toString n else toString n

/-- Rendering of a `time.Time` by `Format("15:04:05")` and of a
`time.Duration` by `%v`: modelled as decimal rendering of the nanosecond
value (wall-clock text is presentation-only; no claim inspects it). -/
def fmtTimeVal (t : Int) : String := toString t

/-- Bytes to gibibytes: `float64(x)/(1024*1024*1024)`. -/
def toGB (x : Nat) : ℚ := (x : ℚ) / 1073741824

/-- The heavy horizontal rule of the TUI (78 `━` characters plus the
newline). -/
def ruleLine : String := String.mk (List.replicate 78 '━') ++ "\n"

/-- Lines 230–242 of the TUI model file: `renderOverview`. -/
def renderOverview (m : Model) : String :=
  "CPU Usage:    " ++ fmtF1 m.stats.CPU.Usage ++ "% | Temp: " ++
    fmtF1 m.stats.CPU.Temp ++ "°C\n" ++
  "Memory Usage: " ++ fmtUsage1 m.stats.Memory.Usage ++ "% (" ++
    fmtF1 (toGB m.stats.Memory.Used) ++ " GB / " ++
    fmtF1 (toGB m.stats.Memory.Total) ++ " GB)\n" ++
  "GPU Usage:    " ++ fmtF1 m.stats.GPU.Usage ++ "% | Memory: " ++
    fmtF1 m.stats.GPU.MemoryUsage ++ "%\n" ++
  "Load Average: " ++ fmtF2 m.stats.CPU.LoadAvg.1 ++ ", " ++
    fmtF2 m.stats.CPU.LoadAvg.2.1 ++ ", " ++
    fmtF2 m.stats.CPU.LoadAvg.2.2 ++ "\n" ++
  "Uptime:       " ++ fmtTimeVal (m.stats.Uptime / second * second) ++ "\n"

/-- Lines 244–257 of the TUI model file: `renderCPUDetail`. -/
def renderCPUDetail (m : Model) : String :=
  "Overall CPU Usage: " ++ fmtF1 m.stats.CPU.Usage ++ "%\n" ++
  "Temperature: " ++ fmtF1 m.stats.CPU.Temp ++ "°C\n\n" ++
  "Per-Core Usage:\n" ++
  String.join (m.stats.CPU.Cores.enum.map (fun p =>
    "Core " ++ fmtPad2 p.1 ++ ": " ++ fmtF1 p.2 ++ "%\n")) ++
  "\nLoad Average: " ++ fmtF2 m.stats.CPU.LoadAvg.1 ++ ", " ++
    fmtF2 m.stats.CPU.LoadAvg.2.1 ++ ", " ++
    fmtF2 m.stats.CPU.LoadAvg.2.2 ++ "\n"

/-- Lines 259–272 of the TUI model file: `renderMemoryDetail`. -/
def renderMemoryDetail (m : Model) : String :=
  "Memory Usage: " ++ fmtUsage1 m.stats.Memory.Usage ++ "% (" ++
    fmtF2 (toGB m.stats.Memory.Used) ++ " GB used / " ++
    fmtF2 (toGB m.stats.Memory.Total) ++ " GB total)\n" ++
  "Available: " ++ fmtF2 (toGB m.stats.Memory.Available) ++ " GB\n\n" ++
  "Swap Usage: " ++ fmtF1 m.stats.Memory.Swap.Usage ++ "% (" ++
    fmtF2 (toGB m.stats.Memory.Swap.Used) ++ " GB used / " ++
    fmtF2 (toGB m.stats.Memory.Swap.Total) ++ " GB total)\n"

/-- Lines 274–284 of the TUI model file: `renderGPUDetail`. -/
def renderGPUDetail (m : Model) : String :=
  "GPU Usage: " ++ fmtF1 m.stats.GPU.Usage ++ "%\n" ++
  "Temperature: " ++ fmtF1 m.stats.GPU.Temp ++ "°C\n\n" ++
  "GPU Memory Usage: " ++ fmtF1 m.stats.GPU.MemoryUsage ++ "% (" ++
    fmtF2 (toGB m.stats.GPU.MemoryUsed) ++ " GB used / " ++
    fmtF2 (toGB m.stats.GPU.MemoryTotal) ++ " GB total)\n"

/-- Lines 185–228 of the TUI model file: the `View` method.  The quit
branch (lines 186–188) returns the empty string before anything is
rendered. -/
def view (m : Model) : String :=
  if m.quit then "" else
    let s := match m.viewMode with
      | ViewMode.OverviewMode => "mtop - System Monitor (Overview)\n"
      | ViewMode.CPUDetailMode => "mtop - CPU Details\n"
      | ViewMode.MemoryDetailMode => "mtop - Memory Details\n"
      | ViewMode.GPUDetailMode => "mtop - GPU Details\n"
    let s := s ++ "Last update: " ++ fmtTimeVal m.lastUpdate ++
      " | Refresh rate: " ++ fmtTimeVal m.refreshRate ++ "\n"
    let s := s ++ ruleLine ++ "\n"
    let s := s ++ (match m.viewMode with
      | ViewMode.OverviewMode => renderOverview m
      | ViewMode.CPUDetailMode => renderCPUDetail m
      | ViewMode.MemoryDetailMode => renderMemoryDetail m
      | ViewMode.GPUDetailMode => renderGPUDetail m)
    let s := s ++ "\n" ++ ruleLine
    let s := s ++ (if m.lastError ≠ "" then "⚠ " ++ m.lastError ++ "\n" else "")
    s ++ "1: Overview | 2: CPU | 3: Memory | 4: GPU | +/-: Refresh rate | q: Quit\n"

/-- The end-to-end example input of spec §8: concrete page counters. -/
def exampleVM : VMStats64 :=
  { ActiveCount := 100, InactiveCount := 50, WireCount := 30
    SpeculativeCount := 5, CompressorPageCount := 10, PurgeableCount := 20
    ExternalPageCount := 5, FreeCount := 200 }

/-- An all-zero counter snapshot (the Go zero value). -/
def zeroVM : VMStats64 := {}

/-- A snapshot whose used-page combination underflows: every additive
counter is zero and one page is purgeable. -/
def underflowVM : VMStats64 := { PurgeableCount := 1 }

/-- A snapshot with one purgeable page and three free pages: the wrapped
used-page figure re-wraps below `totalPages` when the free count is
added, so the clamp guard does not fire. -/
def wrapVM : VMStats64 := { PurgeableCount := 1, FreeCount := 3 }

/-- A snapshot with more free pages (10) than the 5 total pages of a
20480-byte machine. -/
def freeExceedsVM : VMStats64 := { FreeCount := 10 }

/-- C8: on the spec's end-to-end example (`pageSize = 4096`,
`totalPhysicalBytes = 4096·1000`) the pre-clamp used-page figure is 170,
the clamp guard does not fire, available pages are 270, and the
normalized snapshot carries `Used = 170·4096`, `Available = 270·4096`
and exactly 17 % usage. -/
theorem c8_end_to_end :
    usedPagesRaw exampleVM = 170 ∧
    ¬ (add64 (usedPagesRaw exampleVM) exampleVM.FreeCount >
        4096 * 1000 / 4096) ∧
    clampUsedPages (usedPagesRaw exampleVM) exampleVM.FreeCount
      (4096 * 1000 / 4096) = 170 ∧
    add64 (add64 exampleVM.FreeCount exampleVM.InactiveCount)
      exampleVM.PurgeableCount = 270 ∧
    (collectMemoryStatsPure (4096 * 1000) 4096 exampleVM).Used =
      170 * 4096 ∧
    (collectMemoryStatsPure (4096 * 1000) 4096 exampleVM).Available =
      270 * 4096 ∧
    (collectMemoryStatsPure (4096 * 1000) 4096 exampleVM).Usage =
      UsageVal.num 17 := by
  refine ⟨by decide, by decide, by decide, by decide, by decide, by decide, ?_⟩
  have h : (collectMemoryStatsPure (4096 * 1000) 4096 exampleVM).Usage =
      usagePercent 696320 4096000 := rfl
  rw [h]
  unfold usagePercent
  norm_num

/-- C9: `getPageSize` returns a nil error on every path, the double
fallback returns 4096, and consequently `collectMemoryStats` can only
fail when the physical-memory query or the VM-statistics query fails —
never because of page-size acquisition. -/
theorem getPageSize_never_fails :
    (∀ hwPagesize vmPagesize : Option Nat,
      (getPageSize hwPagesize vmPagesize).2 = none) ∧
    getPageSize none none = (4096, none) ∧
    (∀ (pm hwPagesize vmPagesize : Option Nat) (vs : Option VMStats64),
      pm ≠ none → vs ≠ none →
      ∃ st, collectMemoryStats pm hwPagesize vmPagesize vs =
        Except.ok st) := by
  refine ⟨?_, rfl, ?_⟩
  · intro hw vmp
    cases hw <;> cases vmp <;> rfl
  · intro pm hw vmp vs hpm hvs
    cases pm with
    | none => exact absurd rfl hpm
    | some p =>
      cases vs with
      | none => exact absurd rfl hvs
      | some v => cases hw <;> cases vmp <;> exact ⟨_, rfl⟩

/-- Witness for `getPageSize_never_fails` at concrete inputs: both
`sysctl` page-size queries failing, physical memory and VM statistics
present. -/
theorem getPageSize_never_fails_witness :
    ∃ st, collectMemoryStats (some 4096000) none none (some exampleVM) =
      Except.ok st :=
  getPageSize_never_fails.2.2 (some 4096000) none none (some exampleVM)
    (by decide) (by decide)

/-- A concrete quit state (arbitrary other fields). -/
def quitModel : Model :=
  { stats := defaultStats, viewMode := ViewMode.OverviewMode
    refreshRate := second, lastUpdate := 0, width := 80, height := 24
    quit := true, lastError := "" }

/-- C10: when `quit` is set, `View` returns the empty string whatever the
other fields hold. -/
theorem view_quit_empty (m : Model) (h : m.quit = true) : view m = "" := by
  simp [view, h]

/-- Witness for `view_quit_empty` at the concrete state `quitModel`. -/
theorem view_quit_empty_witness : view quitModel = "" :=
  view_quit_empty quitModel rfl

/-- C3, counterexample: with `Total = 0` (zero physical memory, all-zero
counters) the usage figure is the IEEE `NaN` of `0.0/0.0`, not 0 as the
claim states. -/
theorem c3_usage_zero_total_cex :
    (collectMemoryStatsPure 0 4096 zeroVM).Total = 0 ∧
    (collectMemoryStatsPure 0 4096 zeroVM).Usage = UsageVal.nan ∧
    (collectMemoryStatsPure 0 4096 zeroVM).Usage ≠ UsageVal.num 0 := by
  refine ⟨rfl, rfl, by decide⟩

/-- C3 as amended: the computation never faults — with `Total = 0` the
IEEE division yields NaN (for `Used = 0`) or +Inf (for `Used > 0`)
rather than 0, and with `Total ≠ 0` the usage is exactly
`Used/Total·100`. -/
theorem usage_zero_total (physmem pageSize : Nat) (vm : VMStats64) :
    ((collectMemoryStatsPure physmem pageSize vm).Total = 0 →
      (collectMemoryStatsPure physmem pageSize vm).Usage = UsageVal.nan ∨
      (collectMemoryStatsPure physmem pageSize vm).Usage = UsageVal.inf) ∧
    ((collectMemoryStatsPure physmem pageSize vm).Total ≠ 0 →
      (collectMemoryStatsPure physmem pageSize vm).Usage =
        UsageVal.num
          (((collectMemoryStatsPure physmem pageSize vm).Used : ℚ) /
            ((collectMemoryStatsPure physmem pageSize vm).Total : ℚ) *
            100)) := by
  have hT : (collectMemoryStatsPure physmem pageSize vm).Total = physmem := rfl
  have hU : (collectMemoryStatsPure physmem pageSize vm).Usage =
      usagePercent (collectMemoryStatsPure physmem pageSize vm).Used
        physmem := rfl
  constructor
  · intro h
    rw [hT] at h
    rw [hU, h]
    unfold usagePercent
    rw [if_pos rfl]
    split_ifs with hu
    · exact Or.inl rfl
    · exact Or.inr rfl
  · intro h
    rw [hT] at h
    rw [hU, hT]
    unfold usagePercent
    rw [if_neg h]

/-- Witness for `usage_zero_total` at `Total = 0` with all-zero
counters. -/
theorem usage_zero_total_witness :
    (collectMemoryStatsPure 0 4096 zeroVM).Usage = UsageVal.nan ∨
    (collectMemoryStatsPure 0 4096 zeroVM).Usage = UsageVal.inf :=
  (usage_zero_total 0 4096 zeroVM).1 rfl

/-- C7, counterexample: with one purgeable page and every additive
counter zero, the signed combination is −1 but the code's `uint64`
arithmetic wraps to 2^64 − 1; the two disagree. -/
theorem c7_signed_cex :
    usedPagesSigned underflowVM = -1 ∧
    usedPagesRaw underflowVM = U64 - 1 ∧
    (usedPagesRaw underflowVM : Int) ≠ usedPagesSigned underflowVM := by
  refine ⟨by decide, by decide, by decide⟩

/-- C7 as amended: the pre-clamp used-page figure equals the spec's
signed combination reduced modulo 2^64, hence equals it exactly
whenever that signed value is nonnegative. -/
theorem usedPagesRaw_mod_signed (vm : VMStats64) (hv : vm.Valid) :
    (usedPagesRaw vm : Int) = usedPagesSigned vm % (U64 : Nat) ∧
    (0 ≤ usedPagesSigned vm →
      (usedPagesRaw vm : Int) = usedPagesSigned vm) := by
  obtain ⟨b1, b2, b3, b4, b5, b6, b7, b8, b9, b10⟩ := hv
  simp only [U32] at b1 b2 b3 b4 b5 b6 b7 b8 b9 b10
  refine ⟨?_, fun hpos => ?_⟩ <;>
    · simp only [usedPagesRaw, usedPagesSigned, add64, sub64, U64] at *
      omega

/-- Witness for `usedPagesRaw_mod_signed` at the spec's example
counters, whose signed combination 170 is nonnegative. -/
theorem usedPagesRaw_mod_signed_witness :
    (usedPagesRaw exampleVM : Int) = usedPagesSigned exampleVM :=
  (usedPagesRaw_mod_signed exampleVM (by decide)).2 (by decide)

/-- C1, counterexample: `freePages = 3 ≤ totalPages = 1000`, but one
purgeable page underflows the `uint64` used-page figure to 2^64 − 1;
adding the free count wraps the guard's sum back to 2, the clamp does
not fire, and the reported `Used` (2^64 − 4096 bytes) exceeds `Total`
(4 096 000 bytes). -/
theorem c1_used_exceeds_total_cex :
    wrapVM.FreeCount ≤ 4096000 / 4096 ∧
    (collectMemoryStatsPure 4096000 4096 wrapVM).Used >
      (collectMemoryStatsPure 4096000 4096 wrapVM).Total := by
  refine ⟨by decide, by decide⟩

/-- C1 as amended: for `uint64`-ranged inputs with
`freePages ≤ totalPages` whose used-page combination does not underflow
(`purgeable + external ≤ active + inactive + wired + speculative +
compressed`), normalization gives `Used ≤ Total` and
`Available ≤ Total`. -/
theorem mem_clamp_invariant (physmem pageSize : Nat) (vm : VMStats64)
    (hv : vm.Valid) (hpm : physmem < U64) (hps : 0 < pageSize)
    (hfree : vm.FreeCount ≤ physmem / pageSize)
    (hnu : vm.PurgeableCount + vm.ExternalPageCount ≤
      vm.ActiveCount + vm.InactiveCount + vm.WireCount +
        vm.SpeculativeCount + vm.CompressorPageCount) :
    (collectMemoryStatsPure physmem pageSize vm).Used ≤
      (collectMemoryStatsPure physmem pageSize vm).Total ∧
    (collectMemoryStatsPure physmem pageSize vm).Available ≤
      (collectMemoryStatsPure physmem pageSize vm).Total := by
  obtain ⟨b1, b2, b3, b4, b5, b6, b7, b8, b9, b10⟩ := hv
  simp only [U32] at b1 b2 b3 b4 b5 b6 b7 b8 b9 b10
  have hraw : usedPagesRaw vm =
      vm.ActiveCount + vm.InactiveCount + vm.WireCount +
        vm.SpeculativeCount + vm.CompressorPageCount -
        (vm.PurgeableCount + vm.ExternalPageCount) := by
    simp only [usedPagesRaw, add64, sub64, U64]
    omega
  have hTlt : physmem / pageSize < U64 :=
    lt_of_le_of_lt (Nat.div_le_self _ _) hpm
  have hused : clampUsedPages (usedPagesRaw vm) vm.FreeCount
      (physmem / pageSize) ≤ physmem / pageSize := by
    generalize hTT : physmem / pageSize = T at hfree hTlt ⊢
    unfold clampUsedPages
    split_ifs with hgt
    · simp only [sub64, U64]
      omega
    · simp only [add64, U64] at hgt
      omega
  have havail :
      (if add64 (add64 vm.FreeCount vm.InactiveCount) vm.PurgeableCount >
          physmem / pageSize then physmem / pageSize
        else add64 (add64 vm.FreeCount vm.InactiveCount)
          vm.PurgeableCount) ≤ physmem / pageSize := by
    split_ifs with h
    · exact le_rfl
    · exact Nat.le_of_not_lt h
  have key : ∀ p : Nat, p ≤ physmem / pageSize →
      mul64 p pageSize ≤ physmem := by
    intro p hp
    calc mul64 p pageSize ≤ p * pageSize := Nat.mod_le _ _
      _ ≤ (physmem / pageSize) * pageSize := Nat.mul_le_mul_right _ hp
      _ ≤ physmem := Nat.div_mul_le_self _ _
  exact ⟨key _ hused, key _ havail⟩

/-- Witness for `mem_clamp_invariant` at the spec's example input. -/
theorem mem_clamp_invariant_witness :
    (collectMemoryStatsPure 4096000 4096 exampleVM).Used ≤
      (collectMemoryStatsPure 4096000 4096 exampleVM).Total ∧
    (collectMemoryStatsPure 4096000 4096 exampleVM).Available ≤
      (collectMemoryStatsPure 4096000 4096 exampleVM).Total :=
  mem_clamp_invariant 4096000 4096 exampleVM (by decide) (by decide)
    (by decide) (by decide) (by decide)

/-- C2, counterexample: 10 free pages against 5 total pages (20480 bytes
at page size 4096, all other counters zero) triggers the clamp, which
computes `totalPages − freePages` in `uint64` arithmetic and wraps to
2^64 − 5 — not 0 as the claim states — so `Used` comes out as
2^64 − 20480 bytes. -/
theorem c2_clamp_zero_cex :
    freeExceedsVM.FreeCount > 20480 / 4096 ∧
    add64 (usedPagesRaw freeExceedsVM) freeExceedsVM.FreeCount >
      20480 / 4096 ∧
    clampUsedPages (usedPagesRaw freeExceedsVM) freeExceedsVM.FreeCount
      (20480 / 4096) = U64 - 5 ∧
    clampUsedPages (usedPagesRaw freeExceedsVM) freeExceedsVM.FreeCount
      (20480 / 4096) ≠ 0 ∧
    (collectMemoryStatsPure 20480 4096 freeExceedsVM).Used =
      U64 - 20480 := by
  refine ⟨by decide, by decide, by decide, by decide, by decide⟩

/-- C2 as amended: whenever the guard fires, the clamp assigns
`totalPages − freePages` computed in `uint64` modular arithmetic — the
exact difference when `freePages ≤ totalPages`, and the wrapped value
`2^64 − (freePages − totalPages)` (never a clamp to 0) when
`freePages > totalPages`. -/
theorem clamp_modular (u f t : Nat) (hu : u < U64) (hf : f < U64)
    (ht : t < U64) (hgt : add64 u f > t) :
    clampUsedPages u f t = sub64 t f ∧
    (f ≤ t → clampUsedPages u f t = t - f) ∧
    (t < f → clampUsedPages u f t = U64 - (f - t)) := by
  have h0 : clampUsedPages u f t = sub64 t f := by
    unfold clampUsedPages
    rw [if_pos hgt]
  refine ⟨h0, fun hle => ?_, fun hlt => ?_⟩ <;>
    · rw [h0]
      simp only [sub64, U64] at *
      omega

/-- Witness for `clamp_modular` at the counterexample figures
(`u = 0`, `f = 10`, `t = 5`). -/
theorem clamp_modular_witness :
    clampUsedPages 0 10 5 = U64 - (10 - 5) :=
  (clamp_modular 0 10 5 (by decide) (by decide) (by decide)
    (by decide)).2.2 (by decide)

/-- C4: the Tick transition — on success the stats are replaced and the
error cleared; on failure the prior stats are kept and a non-empty error
message is set; in both cases the tick time is recorded, the refresh
interval is untouched, and the follow-up command re-arms the timer with
the current `refreshRate`. -/
theorem tick_transition (m : Model) (t : Int) (s : SystemStats)
    (e : String) :
    (update m (Msg.tick t (Except.ok s))).1.stats = s ∧
    (update m (Msg.tick t (Except.ok s))).1.lastError = "" ∧
    (update m (Msg.tick t (Except.error e))).1.stats = m.stats ∧
    (update m (Msg.tick t (Except.error e))).1.lastError ≠ "" ∧
    (∀ r : Except String SystemStats,
      (update m (Msg.tick t r)).1.lastUpdate = t ∧
      (update m (Msg.tick t r)).2 = some (Cmd.tick m.refreshRate) ∧
      (update m (Msg.tick t r)).1.refreshRate = m.refreshRate) := by
  refine ⟨rfl, rfl, rfl, ?_, ?_⟩
  · show ¬ ("Error collecting stats: " ++ e) = ""
    intro h
    have h2 := congrArg String.length h
    rw [String.length_append] at h2
    have h3 : ("Error collecting stats: ").length = 24 := rfl
    have h4 : ("" : String).length = 0 := rfl
    omega
  · intro r
    cases r <;> exact ⟨rfl, rfl, rfl⟩

/-- Witness for `tick_transition` at a concrete state, tick time and
collection outcomes. -/
theorem tick_transition_witness :
    (update (initialModel 0 (Except.ok defaultStats))
        (Msg.tick 7 (Except.ok defaultStats))).1.stats = defaultStats ∧
    (update (initialModel 0 (Except.ok defaultStats))
        (Msg.tick 7 (Except.ok defaultStats))).1.lastError = "" ∧
    (update (initialModel 0 (Except.ok defaultStats))
        (Msg.tick 7 (Except.error "boom"))).1.stats =
      (initialModel 0 (Except.ok defaultStats)).stats ∧
    (update (initialModel 0 (Except.ok defaultStats))
        (Msg.tick 7 (Except.error "boom"))).1.lastError ≠ "" ∧
    (∀ r : Except String SystemStats,
      (update (initialModel 0 (Except.ok defaultStats))
          (Msg.tick 7 r)).1.lastUpdate = 7 ∧
      (update (initialModel 0 (Except.ok defaultStats))
          (Msg.tick 7 r)).2 =
        some (Cmd.tick (initialModel 0 (Except.ok defaultStats)).refreshRate) ∧
      (update (initialModel 0 (Except.ok defaultStats))
          (Msg.tick 7 r)).1.refreshRate =
        (initialModel 0 (Except.ok defaultStats)).refreshRate) :=
  tick_transition (initialModel 0 (Except.ok defaultStats)) 7 defaultStats
    "boom"

/-- The refresh rate of every initial state is one second. -/
theorem initialModel_refreshRate (t0 : Int)
    (c : Except String SystemStats) :
    (initialModel t0 c).refreshRate = second := by
  cases c <;> rfl

/-- Characterization of how one event can move `refreshRate`: unchanged,
or one 100 ms step down guarded by `> 100 ms`, or one 100 ms step up
guarded by `< 5 s`. -/
theorem update_rate_cases (m : Model) (msg : Msg) :
    (update m msg).1.refreshRate = m.refreshRate ∨
    ((update m msg).1.refreshRate = m.refreshRate - 100 * millisecond ∧
      m.refreshRate > 100 * millisecond) ∨
    ((update m msg).1.refreshRate = m.refreshRate + 100 * millisecond ∧
      m.refreshRate < 5 * second) := by
  cases msg with
  | windowSize w ht => exact Or.inl rfl
  | tick t r =>
    cases r with
    | ok s => exact Or.inl rfl
    | error e => exact Or.inl rfl
  | key s =>
    simp only [update]
    split_ifs with h1 h2 h3 h4 h5 h6 hc h7 hd
    · exact Or.inl rfl
    · exact Or.inl rfl
    · exact Or.inl rfl
    · exact Or.inl rfl
    · exact Or.inl rfl
    · exact Or.inr (Or.inl ⟨rfl, hc⟩)
    · exact Or.inl rfl
    · exact Or.inr (Or.inr ⟨rfl, hd⟩)
    · exact Or.inl rfl
    · exact Or.inl rfl

/-- Every reachable state's refresh rate is a whole number of 100 ms
steps between 1 and 50 of them. -/
theorem reachable_rate_mul (m : Model) (h : Reachable m) :
    ∃ k : Nat, m.refreshRate = (k : Int) * (100 * millisecond) ∧
      1 ≤ k ∧ k ≤ 50 := by
  induction h with
  | init t0 c =>
    refine ⟨10, ?_, by decide, by decide⟩
    rw [initialModel_refreshRate]
    decide
  | step msg hr ih =>
    obtain ⟨k, hk, hk1, hk50⟩ := ih
    rcases update_rate_cases _ msg with h | ⟨h, hgt⟩ | ⟨h, hlt⟩
    · exact ⟨k, h.trans hk, hk1, hk50⟩
    · rw [hk] at hgt
      simp only [millisecond] at hgt
      refine ⟨k - 1, ?_, by omega, by omega⟩
      rw [h, hk]
      simp only [millisecond]
      omega
    · rw [hk] at hlt
      simp only [millisecond, second] at hlt
      refine ⟨k + 1, ?_, by omega, by omega⟩
      rw [h, hk]
      simp only [millisecond]
      omega

/-- One 100 ms step down, exactly as the `"+"` key handler guards it. -/
def rateStep (r : Int) : Int :=
  if r > 100 * millisecond then r - 100 * millisecond else r

/-- The `"+"` key moves `refreshRate` by `rateStep` (and nothing else
about the rate). -/
theorem update_key_plus_rate (m : Model) :
    (update m (Msg.key "+")).1.refreshRate = rateStep m.refreshRate := by
  show (if m.refreshRate > 100 * millisecond then
      { m with refreshRate := m.refreshRate - 100 * millisecond }
    else m).refreshRate = rateStep m.refreshRate
  unfold rateStep
  split_ifs <;> rfl

/-- `n` consecutive `"+"` keys iterate `rateStep` `n` times. -/
theorem applyMsgs_plus_rate (n : Nat) (m : Model) :
    (applyMsgs m (List.replicate n (Msg.key "+"))).refreshRate =
      rateStep^[n] m.refreshRate := by
  induction n generalizing m with
  | zero => rfl
  | succ n ih =>
    rw [List.replicate_succ]
    show (applyMsgs (update m (Msg.key "+")).1
      (List.replicate n (Msg.key "+"))).refreshRate = _
    rw [ih, update_key_plus_rate, Function.iterate_succ_apply]

/-- A concrete state already at the 100 ms floor. -/
def floorModel : Model :=
  { stats := defaultStats, viewMode := ViewMode.OverviewMode
    refreshRate := 100 * millisecond, lastUpdate := 0, width := 80
    height := 24, quit := false, lastError := "" }

/-- A concrete state already at the 5 s ceiling. -/
def ceilModel : Model :=
  { stats := defaultStats, viewMode := ViewMode.OverviewMode
    refreshRate := 5 * second, lastUpdate := 0, width := 80, height := 24
    quit := false, lastError := "" }

/-- C5: every reachable state keeps `refreshRate` within
[100 ms, 5000 ms]; a speed-up request at the floor and a slow-down
request at the ceiling leave the state untouched and emit no command;
and from the initial 1000 ms, 20 consecutive speed-up keys land exactly
on 100 ms. -/
theorem refresh_interval_bounds :
    (∀ m : Model, Reachable m →
      100 * millisecond ≤ m.refreshRate ∧ m.refreshRate ≤ 5 * second) ∧
    (∀ m : Model, m.refreshRate = 100 * millisecond →
      (update m (Msg.key "+")).1 = m ∧ (update m (Msg.key "=")).1 = m ∧
      (update m (Msg.key "+")).2 = none) ∧
    (∀ m : Model, m.refreshRate = 5 * second →
      (update m (Msg.key "-")).1 = m ∧ (update m (Msg.key "_")).1 = m ∧
      (update m (Msg.key "-")).2 = none) ∧
    (∀ (t0 : Int) (c : Except String SystemStats),
      (applyMsgs (initialModel t0 c)
        (List.replicate 20 (Msg.key "+"))).refreshRate =
        100 * millisecond) := by
  refine ⟨?_, ?_, ?_, ?_⟩
  · intro m h
    obtain ⟨k, hk, hk1, hk50⟩ := reachable_rate_mul m h
    rw [hk]
    simp only [millisecond, second]
    constructor <;> omega
  · intro m hm
    refine ⟨?_, ?_, rfl⟩
    · show (if m.refreshRate > 100 * millisecond then
          { m with refreshRate := m.refreshRate - 100 * millisecond }
        else m) = m
      rw [hm, if_neg (lt_irrefl _)]
    · show (if m.refreshRate > 100 * millisecond then
          { m with refreshRate := m.refreshRate - 100 * millisecond }
        else m) = m
      rw [hm, if_neg (lt_irrefl _)]
  · intro m hm
    refine ⟨?_, ?_, rfl⟩
    · show (if m.refreshRate < 5 * second then
          { m with refreshRate := m.refreshRate + 100 * millisecond }
        else m) = m
      rw [hm, if_neg (lt_irrefl _)]
    · show (if m.refreshRate < 5 * second then
          { m with refreshRate := m.refreshRate + 100 * millisecond }
        else m) = m
      rw [hm, if_neg (lt_irrefl _)]
  · intro t0 c
    rw [applyMsgs_plus_rate, initialModel_refreshRate]
    decide

/-- Witness for `refresh_interval_bounds`: bounds at a concrete initial
state, no-ops at concrete boundary states, and the concrete 20-press
run. -/
theorem refresh_interval_bounds_witness :
    (100 * millisecond ≤
        (initialModel 0 (Except.ok defaultStats)).refreshRate ∧
      (initialModel 0 (Except.ok defaultStats)).refreshRate ≤
        5 * second) ∧
    (update floorModel (Msg.key "+")).1 = floorModel ∧
    (update ceilModel (Msg.key "-")).1 = ceilModel ∧
    (applyMsgs (initialModel 0 (Except.ok defaultStats))
      (List.replicate 20 (Msg.key "+"))).refreshRate =
      100 * millisecond :=
  ⟨refresh_interval_bounds.1 _ (Reachable.init 0 (Except.ok defaultStats)),
    (refresh_interval_bounds.2.1 floorModel rfl).1,
    (refresh_interval_bounds.2.2.1 ceilModel rfl).1,
    refresh_interval_bounds.2.2.2 0 (Except.ok defaultStats)⟩

/-- C6, counterexample: in a state with `quit = true`, the `Update`
function still processes a later `"2"` key and changes `viewMode` — the
transition function does not make `quit` terminal. -/
theorem c6_quit_not_terminal_cex :
    quitModel.quit = true ∧
    (update quitModel (Msg.key "2")).1.viewMode ≠ quitModel.viewMode := by
  refine ⟨rfl, by decide⟩

/-- C6 as amended: `quit`, once set, is never cleared by any later
event, and the quit keys both set it and return the `tea.Quit` command —
terminality of the running program rests on the event loop stopping
delivery after that command, not on `Update` guarding its fields. -/
theorem quit_sticky (m : Model) (msg : Msg) (h : m.quit = true) :
    (update m msg).1.quit = true ∧
    (update m (Msg.key "q")).2 = some Cmd.quit ∧
    (update m (Msg.key "ctrl+c")).2 = some Cmd.quit ∧
    (update m (Msg.key "q")).1.quit = true ∧
    (update m (Msg.key "ctrl+c")).1.quit = true := by
  refine ⟨?_, rfl, rfl, rfl, rfl⟩
  cases msg with
  | windowSize w ht => exact h
  | tick t r =>
    cases r with
    | ok s => exact h
    | error e => exact h
  | key s =>
    simp only [update]
    split_ifs <;> first | rfl | exact h

/-- Witness for `quit_sticky` at the concrete quit state and a concrete
later event. -/
theorem quit_sticky_witness :
    (update quitModel (Msg.windowSize 10 10)).1.quit = true :=
  (quit_sticky quitModel (Msg.windowSize 10 10) rfl).1
